import Mathlib

/-!
Shallow embedding of the session-authenticated live-status synchronization
layer of the mobile client:

* `src/utils/authenticatedFetch.ts` — the credential refresh coordinator
  (`refreshAccessToken`, `authenticatedFetch`, `makeRequest`);
* `src/contexts/OrderTrackingContext` (source file with unknown name) — the
  order tracking synchronizer (`fetchActiveOrder`, `dismissBanner`);
* `src/app/order-tracking.tsx` — the countdown derivation of the order
  tracking screen.

JavaScript values are modelled as follows: `string | null` /
`string | undefined` become `Option String`; numbers used as integers become
`Int` (with `Int.fdiv` for `Math.floor` of a quotient, `max`/`min` for
`Math.max`/`Math.min`); a `fetch` that may throw becomes an `Option`-valued
network oracle (`none` = rejected promise / network error).  The JavaScript
run-to-completion semantics lets each synchronous segment of an async
function be modelled as one atomic state transition.
-/

namespace MobileApp

/-- JS truthiness of a `string | null | undefined` value: `null`, `undefined`
and the empty string are falsy. -/
def strOptTruthy : Option String → Bool
  | none => false
  | some s => s ≠ ""

/-- `response.ok` of the Fetch API: status in the inclusive range 200–299. -/
def respOk (status : Nat) : Bool := 200 ≤ status && status < 300

/-! ## Credential refresh coordinator (`src/utils/authenticatedFetch.ts`) -/

/-- The `AuthContextRef` fields read by the coordinator: `token` and
`refreshTokenValue` (the `setToken` / `logout` callbacks are modelled as
recorded effects, see `RefreshEffects`). -/
structure AuthState where
  token : Option String
  refreshTokenValue : Option String
  deriving Repr, DecidableEq

/-- The module-level mutable state of `authenticatedFetch.ts`:
`isRefreshing` and `refreshPromise`.  A pending promise is identified by a
numeric id (`refreshPromise = some pid`); `none` models the `null` value. -/
structure FetchState where
  isRefreshing : Bool
  refreshPromise : Option Nat
  deriving Repr, DecidableEq

/-- Observable effects of one execution of `refreshAccessToken`:
how many requests were sent to the refresh endpoint, which tokens were
passed to `authRef.setToken`, and whether `authRef.logout` was invoked. -/
structure RefreshEffects where
  networkCalls : Nat
  setTokenCalls : List String
  logoutCalled : Bool
  deriving Repr, DecidableEq

/-- A settled response of the refresh endpoint: its HTTP status and the
`access_token` field of its JSON body. -/
structure RefreshResponse where
  status : Nat
  accessToken : String
  deriving Repr, DecidableEq

/-- What the synchronous prefix of a call to `refreshAccessToken` does,
before the first `await` suspends it. -/
inductive RefreshEntry where
  /-- `!authRef || !authRef.refreshTokenValue`: the call returns `null`
  immediately, no network request. -/
  | immediateNull : RefreshEntry
  /-- `isRefreshing && refreshPromise`: the call returns the already
  pending promise `pid`, no network request. -/
  | joined (pid : Nat) : RefreshEntry
  /-- Otherwise the call sets `isRefreshing = true`, stores a fresh promise
  `pid` in `refreshPromise` and starts the network request to the refresh
  endpoint. -/
  | started (pid : Nat) : RefreshEntry
  deriving Repr, DecidableEq

/-- The synchronous prefix of `refreshAccessToken` (lines 18–41 of
`authenticatedFetch.ts`): the guard on the refresh token, the in-flight
check, and — in the starting case — the assignments to `isRefreshing` and
`refreshPromise` together with issuing the `fetch`, all of which happen
before the first suspension point.  `freshPid` is the identity of the
promise a starting call would create. -/
def refreshEntryStep (auth : AuthState) (s : FetchState) (freshPid : Nat) :
    RefreshEntry × FetchState :=
  if !strOptTruthy auth.refreshTokenValue then
    (.immediateNull, s)
  else
    match s.isRefreshing, s.refreshPromise with
    | true, some pid => (.joined pid, s)
    | true, none => (.started freshPid, ⟨true, some freshPid⟩)
    | false, _ => (.started freshPid, ⟨true, some freshPid⟩)

/-- `true` exactly on a `started` entry, i.e. when the call issued a
network request to the refresh endpoint. -/
def RefreshEntry.isStarted : RefreshEntry → Bool
  | .started _ => true
  | _ => false

/-- Runs `n` consecutive calls to `refreshAccessToken` whose synchronous
prefixes all execute before the pending refresh settles (the JS event loop
interleaves whole synchronous segments, so consecutive composition is the
general case).  Fresh promise ids count up from `freshPid`. -/
def runRefreshEntries (auth : AuthState) :
    Nat → FetchState → Nat → List RefreshEntry × FetchState
  | 0, s, _ => ([], s)
  | n + 1, s, freshPid =>
    let (e, s') := refreshEntryStep auth s freshPid
    let (rest, s'') := runRefreshEntries auth n s' (freshPid + 1)
    (e :: rest, s'')

/-- One full, uncontended execution of `refreshAccessToken` (lines 18–73 of
`authenticatedFetch.ts`), started from the idle state: the refresh-token
guard, the `POST` to the refresh endpoint (`net = none` models a network
error, i.e. a rejected `fetch`), the `!response.ok` branch with its
401/403 logout sub-branch, and the success path calling
`authRef.setToken(data.access_token)`.  Returns the promise's value and
the recorded effects; the `finally` block resets `isRefreshing` and
`refreshPromise`, so the module state after the run is again idle. -/
def refreshAccessTokenRun (auth : AuthState) (net : Option RefreshResponse) :
    Option String × RefreshEffects :=
  if !strOptTruthy auth.refreshTokenValue then
    (none, ⟨0, [], false⟩)
  else
    match net with
    | none => (none, ⟨1, [], false⟩)
    | some resp =>
      if !respOk resp.status then
        if resp.status == 401 || resp.status == 403 then
          (none, ⟨1, [], true⟩)
        else
          (none, ⟨1, [], false⟩)
      else
        (some resp.accessToken, ⟨1, [resp.accessToken], false⟩)

/-- A settled response of an ordinary endpoint, as far as the coordinator
inspects it: its HTTP status. -/
structure HttpResponse where
  status : Nat
  deriving Repr, DecidableEq

/-- Result of a call to `authenticatedFetch`: the returned response, the
bearer token used by each network attempt in order, and the effects of the
refresh protocol if it was invoked. -/
structure AFResult where
  response : HttpResponse
  attempts : List (Option String)
  refreshEffects : RefreshEffects
  deriving Repr, DecidableEq

/-- `authenticatedFetch` (lines 75–115 of `authenticatedFetch.ts`) for a
registered session (`authRef` non-null; an unregistered session throws and
is outside this model).  `respFor k` is the response of the `k`-th request
this call issues on `url` (the first attempt is request `0`, the retry is
request `1`); `refreshNet` is the refresh endpoint's behaviour if the
refresh protocol runs.  First attempt with the current token; on a 401,
`refreshAccessToken` once, and `if (newToken)` — JS truthiness, so `null`
and the empty string both fail it, modelled by `strOptTruthy` — one retry
with the new token whose response is returned; otherwise the original
response. -/
def authenticatedFetch (auth : AuthState) (respFor : Nat → HttpResponse)
    (refreshNet : Option RefreshResponse) : AFResult :=
  let r0 := respFor 0
  if r0.status == 401 then
    let res := refreshAccessTokenRun auth refreshNet
    if strOptTruthy res.1 then
      ⟨respFor 1, [auth.token, res.1], res.2⟩
    else
      ⟨r0, [auth.token], res.2⟩
  else
    ⟨r0, [auth.token], ⟨0, [], false⟩⟩

/-- The string interpolation `` `Bearer ${token}` `` of JavaScript: a
`null` token prints as the string `"null"`. -/
def bearerOf : Option String → String
  | none => "Bearer null"
  | some t => "Bearer " ++ t

/-- JS object-literal insertion `{ ...m, k: v }` restricted to one key:
if `k` is already a key of `m`, its value is replaced in place, otherwise
`(k, v)` is appended.  Header objects are association lists in insertion
order with unique keys. -/
def objInsert (m : List (String × String)) (k v : String) :
    List (String × String) :=
  if m.any (fun p => p.1 == k) then
    m.map (fun p => if p.1 == k then (k, v) else p)
  else
    m ++ [(k, v)]

/-- The header object built by `makeRequest` (lines 84–88 of
`authenticatedFetch.ts`): an object literal spreading `options.headers`
first and then writing the literal keys `Authorization` (with the bearer
value) and `Content-Type` (with `application/json`), so the two literal
keys override any caller-supplied bindings. -/
def makeRequestHeaders (optHeaders : List (String × String))
    (token : Option String) : List (String × String) :=
  objInsert (objInsert optHeaders "Authorization" (bearerOf token))
    "Content-Type" "application/json"

/-- Key lookup in a header object (first, hence unique, binding). -/
def headerLookup : List (String × String) → String → Option String
  | [], _ => none
  | p :: rest, k => if p.1 == k then some p.2 else headerLookup rest k

/-! ## Order tracking synchronizer (`OrderTrackingContext`) -/

/-- The fields of an order body read by the synchronizer and the tracking
screen: `id`, `order_status`, and — for the countdown — `assigned_at`
(modelled as the parsed timestamp in milliseconds) and
`estimated_delivery_time` (the server's estimate in minutes). -/
structure OrderData where
  id : String
  order_status : String
  assigned_at : Option Int
  estimated_delivery_time : Option Int
  deriving Repr, DecidableEq

/-- The React state of `OrderTrackingProvider` that `fetchActiveOrder`,
`dismissBanner` and `resumePolling` read and write: `activeOrder`, `error`,
`isPollingEnabled` and `dismissedOrderId` (`loading` is only toggled around
`refreshActiveOrder` and carries no logic). -/
structure TrackingState where
  activeOrder : Option OrderData
  error : Option String
  isPollingEnabled : Bool
  dismissedOrderId : Option String
  deriving Repr, DecidableEq

/-- Outcome of the single raw `fetch` of the active-order endpoint:
either the promise rejected (network error, carrying the error message the
`catch` block will store), or a settled response with its status and — when
the body is consulted — the parsed JSON body (`none` = JSON `null`). -/
inductive FetchOutcome where
  | networkError (msg : String) : FetchOutcome
  | response (status : Nat) (body : Option OrderData) : FetchOutcome
  deriving Repr, DecidableEq

/-- `fetchActiveOrder` of `OrderTrackingProvider`: the guard on token, user
and polling flag, then one raw `fetch` of `GET /orders/active` whose
outcome is `out`; 404 clears order, error and dismissal; 401 clears the
order; any other non-2xx throws into the `catch`, which records the error
and clears the order; a 2xx `null` body clears the order; otherwise the
dismissal checks run (both reading the pre-call `dismissedOrderId`, per
React closure semantics) and the order is replaced by the snapshot.
Returns the new state and the number of network requests issued. -/
def fetchActiveOrder (hasToken hasUser : Bool) (out : FetchOutcome)
    (s : TrackingState) : TrackingState × Nat :=
  if !hasToken || !hasUser || !s.isPollingEnabled then (s, 0)
  else
    match out with
    | .networkError msg =>
      ({ s with error := some msg, activeOrder := none }, 1)
    | .response status body =>
      if status == 404 then
        ({ s with activeOrder := none, error := none, dismissedOrderId := none }, 1)
      else if status == 401 then
        ({ s with activeOrder := none }, 1)
      else if !respOk status then
        ({ s with error := some ("Failed to fetch: " ++ toString status),
                  activeOrder := none }, 1)
      else
        match body with
        | none => ({ s with activeOrder := none }, 1)
        | some data =>
          let s1 :=
            if strOptTruthy s.dismissedOrderId
                && (some data.id != s.dismissedOrderId) then
              { s with dismissedOrderId := none, isPollingEnabled := true }
            else s
          if s.dismissedOrderId == some data.id
              && data.order_status == "delivered" then
            (s1, 1)
          else
            ({ s1 with activeOrder := some data, error := none }, 1)

/-- `dismissBanner`: only when the current order's status is exactly
`delivered` does it record that order's id as dismissed and clear the
active order; otherwise (other status or no order) it changes nothing. -/
def dismissBanner (s : TrackingState) : TrackingState :=
  match s.activeOrder with
  | some o =>
    if o.order_status == "delivered" then
      { s with dismissedOrderId := some o.id, activeOrder := none }
    else s
  | none => s

/-- `resumePolling`: re-enables polling and clears the dismissal. -/
def resumePolling (s : TrackingState) : TrackingState :=
  { s with isPollingEnabled := true, dismissedOrderId := none }

/-! ## Countdown derivation (`src/app/order-tracking.tsx`) -/

/-- The countdown state of `OrderTrackingScreen`:
`timeRemainingSeconds` and `countdownInitialized`. -/
structure ScreenState where
  timeRemainingSeconds : Option Int
  countdownInitialized : Option String
  deriving Repr, DecidableEq

/-- The `validStatuses` array of the countdown-initialization effect. -/
def validStatuses : List String := ["assigned", "out_for_delivery"]

/-- The countdown-initialization effect (lines 41–95 of
`order-tracking.tsx`), run when the observed `(activeOrder?.id,
activeOrder?.order_status)` pair changes; `now` is the current time in
milliseconds.  No order, or a status outside `validStatuses`, resets both
fields; an id already initialized is left untouched; otherwise the initial
remaining seconds are computed: `estimatedMinutes` is the literal `30`
(the server's `estimated_delivery_time` is only logged, never read into
it, so the `> 180` unit-conversion branch is dead), clamped to `[10, 60]`,
converted to seconds, and reduced by the time elapsed since `assigned_at`,
floored at zero. -/
def initCountdown (activeOrder : Option OrderData) (now : Int)
    (s : ScreenState) : ScreenState :=
  match activeOrder with
  | none => ⟨none, none⟩
  | some o =>
    if !(validStatuses.contains o.order_status) then ⟨none, none⟩
    else if s.countdownInitialized == some o.id then s
    else
      let estimatedMinutes : Int := 30
      let estimatedMinutes :=
        if estimatedMinutes > 180 then Int.fdiv estimatedMinutes 60
        else estimatedMinutes
      let estimatedMinutes := max 10 (min estimatedMinutes 60)
      let remainingSeconds := estimatedMinutes * 60
      let remainingSeconds :=
        match o.assigned_at with
        | some assignedTime =>
          max 0 (remainingSeconds - Int.fdiv (now - assignedTime) 1000)
        | none => remainingSeconds
      ⟨some remainingSeconds, some o.id⟩

/-- The `setTimeRemainingSeconds` updater passed by the one-second
interval: `null` or non-positive becomes `0`, otherwise decrement. -/
def tickSetter : Option Int → Option Int
  | none => some 0
  | some prev => if prev ≤ 0 then some 0 else some (prev - 1)

/-- One firing of the countdown interval (lines 98–115 of
`order-tracking.tsx`): the interval is only installed while
`timeRemainingSeconds` is non-null and positive, and applies `tickSetter`
when it fires. -/
def tickEffect (s : ScreenState) : ScreenState :=
  match s.timeRemainingSeconds with
  | some t =>
    if 0 < t then { s with timeRemainingSeconds := tickSetter (some t) }
    else s
  | none => s

/-- An event observed by the countdown state: a change of the active
order's `(id, status)` pair (which re-runs the initialization effect), or
a firing of the one-second interval. -/
inductive ScreenEvent where
  | observe (activeOrder : Option OrderData) (now : Int) : ScreenEvent
  | tick : ScreenEvent

/-- The countdown state's transition function over `ScreenEvent`s. -/
def screenStep (s : ScreenState) : ScreenEvent → ScreenState
  | .observe o now => initCountdown o now s
  | .tick => tickEffect s

/-- The countdown state reached from the initial mount state
(`useState(null)` for both fields) after a sequence of events. -/
def runScreen (evs : List ScreenEvent) : ScreenState :=
  evs.foldl screenStep ⟨none, none⟩

/-! ## Helper lemmas -/

theorem headerLookup_map_replace (m : List (String × String)) (k v k' : String)
    (h : k' ≠ k) :
    headerLookup (m.map (fun p => if p.1 = k then (k, v) else p)) k' =
      headerLookup m k' := by
  induction m with
  | nil => rfl
  | cons p rest ih =>
    by_cases hp : p.1 = k
    · have hkk : ¬(k = k') := fun e => h e.symm
      simp [headerLookup, hp, hkk, ih]
    · simp [headerLookup, hp, ih]

theorem headerLookup_objInsert (m : List (String × String)) (k v k' : String) :
    headerLookup (objInsert m k v) k' =
      if k' = k then some v else headerLookup m k' := by
  induction m with
  | nil =>
    by_cases hk : k' = k
    · subst hk
      simp [objInsert, headerLookup]
    · have hkk : ¬(k = k') := fun e => hk e.symm
      simp [objInsert, headerLookup, hk, hkk]
  | cons p rest ih =>
    by_cases hp : p.1 = k
    · have hany : (p :: rest).any (fun q => q.1 == k) = true := by
        simp [hp]
      by_cases hk : k' = k
      · subst hk
        simp [objInsert, hany, headerLookup, hp]
      · have hkk : ¬(k = k') := fun e => hk e.symm
        simp [objInsert, hany, headerLookup, hp, hk, hkk,
          headerLookup_map_replace rest k v k' hk]
    · have hstep : objInsert (p :: rest) k v = p :: objInsert rest k v := by
        by_cases hr : rest.any (fun q => q.1 == k)
        · simp [objInsert, hp, hr]
        · simp [objInsert, hp, hr]
      by_cases hk : k' = k
      · subst hk
        rw [hstep]
        simp [headerLookup, hp, ih]
      · rw [hstep]
        simp [headerLookup, ih, hk]

/-! ## Claims -/

/-- C10: every request issued by `makeRequest` carries
`Authorization: Bearer <current token>` and
`Content-Type: application/json` — the coordinator's two literal keys
override any caller-supplied binding for them — while every other
caller-supplied header is preserved unchanged. -/
theorem makeRequest_overrides_auth_headers (optHeaders : List (String × String))
    (token : Option String) :
    headerLookup (makeRequestHeaders optHeaders token) "Authorization" =
      some (bearerOf token) ∧
    headerLookup (makeRequestHeaders optHeaders token) "Content-Type" =
      some "application/json" ∧
    ∀ k, k ≠ "Authorization" → k ≠ "Content-Type" →
      headerLookup (makeRequestHeaders optHeaders token) k =
        headerLookup optHeaders k := by
  have hne : ("Authorization" : String) ≠ "Content-Type" := by decide
  refine ⟨?_, ?_, ?_⟩
  · rw [makeRequestHeaders, headerLookup_objInsert, headerLookup_objInsert]
    simp [hne]
  · rw [makeRequestHeaders, headerLookup_objInsert]
    simp
  · intro k h1 h2
    rw [makeRequestHeaders, headerLookup_objInsert, headerLookup_objInsert]
    simp [h1, h2]

/-- Witness for C10 at a concrete input: a caller-supplied stale
`Authorization` header is overridden while the custom header survives. -/
theorem makeRequest_overrides_auth_headers_witness :
    ("X-Custom" : String) ≠ "Authorization" ∧
    ("X-Custom" : String) ≠ "Content-Type" ∧
    headerLookup
      (makeRequestHeaders [("Authorization", "Bearer stale"), ("X-Custom", "7")]
        (some "fresh")) "X-Custom" =
      headerLookup [("Authorization", "Bearer stale"), ("X-Custom", "7")]
        "X-Custom" :=
  ⟨by decide, by decide,
    (makeRequest_overrides_auth_headers
      [("Authorization", "Bearer stale"), ("X-Custom", "7")]
      (some "fresh")).2.2 "X-Custom" (by decide) (by decide)⟩

/-- C3: `refreshAccessToken` outcome mapping — with no (truthy) refresh
token it returns `null` with no network call; a refresh-endpoint 401/403
invokes `logout` and returns `null`; a network error or any other non-ok
status returns `null` touching neither `setToken` nor `logout`; success
stores the new access token via `setToken` and returns it. -/
theorem refreshAccessToken_outcome_mapping (auth : AuthState)
    (net : Option RefreshResponse) :
    (auth.refreshTokenValue = none →
      refreshAccessTokenRun auth net = (none, ⟨0, [], false⟩)) ∧
    (strOptTruthy auth.refreshTokenValue = true → net = none →
      refreshAccessTokenRun auth net = (none, ⟨1, [], false⟩)) ∧
    (∀ resp, strOptTruthy auth.refreshTokenValue = true → net = some resp →
      (resp.status = 401 ∨ resp.status = 403) →
      refreshAccessTokenRun auth net = (none, ⟨1, [], true⟩)) ∧
    (∀ resp, strOptTruthy auth.refreshTokenValue = true → net = some resp →
      respOk resp.status = false → resp.status ≠ 401 → resp.status ≠ 403 →
      refreshAccessTokenRun auth net = (none, ⟨1, [], false⟩)) ∧
    (∀ resp, strOptTruthy auth.refreshTokenValue = true → net = some resp →
      respOk resp.status = true →
      refreshAccessTokenRun auth net =
        (some resp.accessToken, ⟨1, [resp.accessToken], false⟩)) := by
  refine ⟨?_, ?_, ?_, ?_, ?_⟩
  · intro h
    simp [refreshAccessTokenRun, h, strOptTruthy]
  · intro h hnet
    subst hnet
    simp [refreshAccessTokenRun, h]
  · rintro resp h rfl (h401 | h403)
    · simp [refreshAccessTokenRun, h, h401, respOk]
    · simp [refreshAccessTokenRun, h, h403, respOk]
  · intro resp h hnet hok h1 h3
    subst hnet
    simp [refreshAccessTokenRun, h, hok, h1, h3]
  · intro resp h hnet hok
    subst hnet
    simp [refreshAccessTokenRun, h, hok]

/-- Witness for C3 at a concrete input: a 403 from the refresh endpoint
logs the user out and yields `null`. -/
theorem refreshAccessToken_outcome_mapping_witness :
    strOptTruthy (some "rt") = true ∧
    refreshAccessTokenRun ⟨some "tok", some "rt"⟩ (some ⟨403, "x"⟩) =
      (none, ⟨1, [], true⟩) :=
  ⟨by decide,
    (refreshAccessToken_outcome_mapping ⟨some "tok", some "rt"⟩
      (some ⟨403, "x"⟩)).2.2.1 ⟨403, "x"⟩ (by decide) rfl (Or.inr rfl)⟩

/-- C2: `authenticatedFetch` retry policy — a first response other than
401 is returned unchanged after a single attempt; on a 401 with a
refresh yielding a truthy token the request is re-issued exactly once
with the new token and that second response is returned whatever its
status (the response oracle is universally quantified, and the number of
attempts is at most 2 in every case); on a refresh yielding no truthy
token (`null`, or the empty string JS treats as falsy) the original 401
response is returned after the single attempt. -/
theorem authenticatedFetch_retry_policy (auth : AuthState)
    (respFor : Nat → HttpResponse) (refreshNet : Option RefreshResponse) :
    ((respFor 0).status ≠ 401 →
      authenticatedFetch auth respFor refreshNet =
        ⟨respFor 0, [auth.token], ⟨0, [], false⟩⟩) ∧
    (∀ t, (respFor 0).status = 401 →
      (refreshAccessTokenRun auth refreshNet).1 = some t → t ≠ "" →
      authenticatedFetch auth respFor refreshNet =
        ⟨respFor 1, [auth.token, some t],
          (refreshAccessTokenRun auth refreshNet).2⟩) ∧
    ((respFor 0).status = 401 →
      strOptTruthy (refreshAccessTokenRun auth refreshNet).1 = false →
      authenticatedFetch auth respFor refreshNet =
        ⟨respFor 0, [auth.token], (refreshAccessTokenRun auth refreshNet).2⟩) ∧
    (authenticatedFetch auth respFor refreshNet).attempts.length ≤ 2 := by
  refine ⟨?_, ?_, ?_, ?_⟩
  · intro h
    simp [authenticatedFetch, h]
  · intro t h0 hr hne
    simp [authenticatedFetch, h0, hr, strOptTruthy, hne]
  · intro h0 hf
    simp [authenticatedFetch, h0, hf]
  · by_cases h : (respFor 0).status = 401
    · by_cases hr : strOptTruthy (refreshAccessTokenRun auth refreshNet).1 = true
      · simp [authenticatedFetch, h, hr]
      · simp [authenticatedFetch, h, hr]
    · simp [authenticatedFetch, h]

/-- Witness for C2 at a concrete input: a 200 first response is passed
through verbatim with exactly one attempt. -/
theorem authenticatedFetch_retry_policy_witness :
    (200 : Nat) ≠ 401 ∧
    authenticatedFetch ⟨some "tok", some "rt"⟩ (fun _ => ⟨200⟩) none =
      ⟨⟨200⟩, [some "tok"], ⟨0, [], false⟩⟩ :=
  ⟨by decide,
    (authenticatedFetch_retry_policy ⟨some "tok", some "rt"⟩
      (fun _ => ⟨200⟩) none).1 (by decide)⟩

theorem refreshEntryStep_inflight (auth : AuthState)
    (h : strOptTruthy auth.refreshTokenValue = true) (pid freshPid : Nat) :
    refreshEntryStep auth ⟨true, some pid⟩ freshPid =
      (.joined pid, ⟨true, some pid⟩) := by
  simp [refreshEntryStep, h]

theorem runRefreshEntries_inflight (auth : AuthState)
    (h : strOptTruthy auth.refreshTokenValue = true) (n : Nat) :
    ∀ pid freshPid,
      runRefreshEntries auth n ⟨true, some pid⟩ freshPid =
        (List.replicate n (.joined pid), ⟨true, some pid⟩) := by
  induction n with
  | zero => intro pid freshPid; simp [runRefreshEntries]
  | succ m ih =>
    intro pid freshPid
    simp [runRefreshEntries, refreshEntryStep_inflight auth h pid freshPid,
      ih pid (freshPid + 1), List.replicate_succ]

theorem countP_isStarted_replicate_joined (n pid : Nat) :
    (List.replicate n (RefreshEntry.joined pid)).countP
      (fun e => e.isStarted) = 0 := by
  induction n with
  | zero => rfl
  | succ m ih =>
    simp [List.replicate_succ, List.countP_cons, RefreshEntry.isStarted, ih]

/-- C1: single-flight refresh — starting from an idle module state
(`isRefreshing = false`, `refreshPromise = null`) with a refresh token
available, any number `n + 1` of calls to `refreshAccessToken` whose
synchronous prefixes run before the in-flight refresh settles produce one
`started` entry (the only network request to the refresh endpoint) and
`n` `joined` entries that all return the very same pending promise `0`,
so every caller observes that one promise's eventual value (the same
token, or the same failure). -/
theorem refresh_single_flight (auth : AuthState) (n : Nat)
    (h : strOptTruthy auth.refreshTokenValue = true) :
    runRefreshEntries auth (n + 1) ⟨false, none⟩ 0 =
      (.started 0 :: List.replicate n (.joined 0), ⟨true, some 0⟩) ∧
    (runRefreshEntries auth (n + 1) ⟨false, none⟩ 0).1.countP
      (fun e => e.isStarted) = 1 := by
  have hfirst : refreshEntryStep auth ⟨false, none⟩ 0 =
      (.started 0, ⟨true, some 0⟩) := by
    simp [refreshEntryStep, h]
  have hmain : runRefreshEntries auth (n + 1) ⟨false, none⟩ 0 =
      (.started 0 :: List.replicate n (.joined 0), ⟨true, some 0⟩) := by
    simp [runRefreshEntries, hfirst, runRefreshEntries_inflight auth h n 0 1]
  refine ⟨hmain, ?_⟩
  rw [hmain]
  simp [List.countP_cons, RefreshEntry.isStarted,
    countP_isStarted_replicate_joined]

/-- Witness for C1 at a concrete input: three calls racing an unsettled
refresh — one `started`, two `joined`, all on promise `0`. -/
theorem refresh_single_flight_witness :
    strOptTruthy (some "rt") = true ∧
    runRefreshEntries ⟨some "tok", some "rt"⟩ 3 ⟨false, none⟩ 0 =
      (.started 0 :: List.replicate 2 (.joined 0), ⟨true, some 0⟩) :=
  ⟨by decide,
    (refresh_single_flight ⟨some "tok", some "rt"⟩ 2 (by decide)).1⟩

/-- C7: the dismissal state machine — `dismissBanner` is a no-op unless
the current order's status is exactly `delivered`, in which case it
records the id and hides the order; a subsequent 2xx poll body carrying
the dismissed id with status `delivered` is discarded with no state
change, while a body with a different (non-degenerate) order id clears
the dismissal, re-enables polling and makes the new order active
regardless of its status. -/
theorem dismissal_state_machine (s : TrackingState) :
    (∀ o, s.activeOrder = some o → o.order_status ≠ "delivered" →
      dismissBanner s = s) ∧
    (s.activeOrder = none → dismissBanner s = s) ∧
    (∀ o, s.activeOrder = some o → o.order_status = "delivered" →
      dismissBanner s =
        { s with dismissedOrderId := some o.id, activeOrder := none }) ∧
    (∀ data : OrderData, s.isPollingEnabled = true →
      s.dismissedOrderId = some data.id → data.order_status = "delivered" →
      fetchActiveOrder true true (.response 200 (some data)) s = (s, 1)) ∧
    (∀ (data : OrderData) (d : String), s.isPollingEnabled = true →
      s.dismissedOrderId = some d → d ≠ "" → data.id ≠ d →
      fetchActiveOrder true true (.response 200 (some data)) s =
        ({ s with dismissedOrderId := none, isPollingEnabled := true,
                  activeOrder := some data, error := none }, 1)) := by
  refine ⟨?_, ?_, ?_, ?_, ?_⟩
  · intro o ho hne
    simp [dismissBanner, ho, hne]
  · intro h
    simp [dismissBanner, h]
  · intro o ho he
    simp [dismissBanner, ho, he]
  · intro data hp hd hst
    simp [fetchActiveOrder, hp, hd, hst, respOk]
  · intro data d hp hd hne hid
    have hid' : ¬(d = data.id) := fun e => hid e.symm
    simp [fetchActiveOrder, hp, hd, strOptTruthy, hne, hid, hid', respOk]

/-- Witness for C7 at a concrete input: dismissing a delivered order
records its id and hides it. -/
theorem dismissal_state_machine_witness :
    (TrackingState.mk (some ⟨"o1", "delivered", none, none⟩) none true
        none).activeOrder = some ⟨"o1", "delivered", none, none⟩ ∧
    dismissBanner ⟨some ⟨"o1", "delivered", none, none⟩, none, true, none⟩ =
      ⟨none, none, true, some "o1"⟩ :=
  ⟨rfl,
    (dismissal_state_machine
      ⟨some ⟨"o1", "delivered", none, none⟩, none, true, none⟩).2.2.1
      ⟨"o1", "delivered", none, none⟩ rfl rfl⟩

/-- C4 counterexample: with an order on display, an active-order fetch
failing with status 500 records the error but does **not** leave the
active order unchanged — it clears it. -/
theorem fetch_error_keeps_order_cex :
    (fetchActiveOrder true true (.response 500 none)
      ⟨some ⟨"o1", "out_for_delivery", none, none⟩, none, true, none⟩).1.error =
      some "Failed to fetch: 500" ∧
    (fetchActiveOrder true true (.response 500 none)
        ⟨some ⟨"o1", "out_for_delivery", none, none⟩, none, true, none⟩).1.activeOrder ≠
      some ⟨"o1", "out_for_delivery", none, none⟩ := by decide

/-- C4 amended: on an active-order fetch failing with a non-2xx status
other than 404 and 401, or with a network error, the synchronizer records
the error **and clears the active order** (sets it to `null`), rather
than leaving the previously displayed order in place. -/
theorem fetch_error_records_and_clears (s : TrackingState) (status : Nat)
    (body : Option OrderData) (hp : s.isPollingEnabled = true)
    (hok : respOk status = false) (h404 : status ≠ 404) (h401 : status ≠ 401) :
    fetchActiveOrder true true (.response status body) s =
      ({ s with error := some ("Failed to fetch: " ++ toString status),
                activeOrder := none }, 1) ∧
    ∀ msg, fetchActiveOrder true true (.networkError msg) s =
      ({ s with error := some msg, activeOrder := none }, 1) := by
  constructor
  · simp [fetchActiveOrder, hp, hok, h404, h401]
  · intro msg
    simp [fetchActiveOrder, hp]

/-- Witness for C4 at a concrete input: a 500 on a previously displayed
order records the error and clears the order. -/
theorem fetch_error_records_and_clears_witness :
    respOk 500 = false ∧ (500 : Nat) ≠ 404 ∧ (500 : Nat) ≠ 401 ∧
    fetchActiveOrder true true (.response 500 none)
      ⟨some ⟨"o2", "assigned", none, none⟩, none, true, none⟩ =
      (⟨none, some "Failed to fetch: 500", true, none⟩, 1) :=
  ⟨by decide, by decide, by decide,
    (fetch_error_records_and_clears
      ⟨some ⟨"o2", "assigned", none, none⟩, none, true, none⟩ 500 none rfl
      (by decide) (by decide) (by decide)).1⟩

/-- C5 counterexample: the active-order poll does **not** go through the
coordinator.  On a first response of 401 the poll issues exactly one
network request and its handler observes that raw 401 (clearing the
order), whereas `authenticatedFetch` in the same environment — a 401
first response, a refresh endpoint answering 200 with a new token, and a
retry answering 200 — performs the refresh, retries, and returns the 200
response after two attempts. -/
theorem poll_bypasses_coordinator_cex :
    fetchActiveOrder true true (.response 401 none)
      ⟨some ⟨"o1", "assigned", none, none⟩, none, true, none⟩ =
      (⟨none, none, true, none⟩, 1) ∧
    authenticatedFetch ⟨some "old", some "rt"⟩
      (fun k => if k == 0 then ⟨401⟩ else ⟨200⟩) (some ⟨200, "new"⟩) =
      ⟨⟨200⟩, [some "old", some "new"], ⟨1, ["new"], false⟩⟩ := by decide

/-- C5 amended: the synchronizer's active-order poll uses a raw `fetch`
with a manually injected bearer header, bypassing `authenticatedFetch`:
every poll issues exactly one network request, and a 401 reaching the
fetch-outcome handler is the raw first response — no refresh-and-retry
has been performed — which the handler answers by clearing the order. -/
theorem poll_single_raw_request (s : TrackingState) (out : FetchOutcome)
    (hp : s.isPollingEnabled = true) :
    (fetchActiveOrder true true out s).2 = 1 ∧
    (∀ body, out = .response 401 body →
      (fetchActiveOrder true true out s).1 = { s with activeOrder := none }) := by
  constructor
  · cases out with
    | networkError msg => simp [fetchActiveOrder, hp]
    | response status body =>
      rcases body with _ | data <;>
        simp only [fetchActiveOrder, hp, Bool.not_true, Bool.or_self,
          Bool.false_or, if_false] <;>
        (repeat' split) <;> simp_all
  · rintro body rfl
    rcases body with _ | data <;> simp [fetchActiveOrder, hp, respOk]

/-- Witness for C5 at a concrete input: a 401 poll response yields one
request and a cleared order. -/
theorem poll_single_raw_request_witness :
    (fetchActiveOrder true true (.response 401 none)
      ⟨some ⟨"o3", "assigned", none, none⟩, some "stale", true, none⟩).2 = 1 :=
  (poll_single_raw_request
    ⟨some ⟨"o3", "assigned", none, none⟩, some "stale", true, none⟩
    (.response 401 none) rfl).1

/-- C6: at the failing input — an order entering `assigned` with
`estimated_delivery_time = 200` and no elapsed time — the code
initializes the countdown to 1800 seconds (the hardcoded 30-minute
default; the server estimate is never read into the computation), not
the 3600 seconds the clamp-to-[10, 60] contract prescribes. -/
theorem countdown_hardcoded_estimate :
    initCountdown (some ⟨"o1", "assigned", none, some 200⟩) 0 ⟨none, none⟩ =
      ⟨some 1800, some "o1"⟩ ∧ (1800 : Int) ≠ 3600 := by decide

theorem initCountdown_already_initialized (s : ScreenState) (o : OrderData)
    (hst : o.order_status = "assigned" ∨ o.order_status = "out_for_delivery")
    (hid : s.countdownInitialized = some o.id) (now : Int) :
    initCountdown (some o) now s = s := by
  have hm : o.order_status ∈ validStatuses := by
    rcases hst with h | h <;> rw [h] <;> decide
  simp [initCountdown, hm, hid]

/-- C8: countdown initialization is idempotent per order id — once the
countdown is initialized for an order id, any further sequence of
observations of that same id with status `assigned` or
`out_for_delivery` (whatever the server-reported estimate or timestamps)
leaves the countdown state exactly as it was. -/
theorem countdown_init_idempotent (s : ScreenState) (oid : String)
    (hid : s.countdownInitialized = some oid)
    (obs : List (OrderData × Int))
    (hobs : ∀ p ∈ obs, p.1.id = oid ∧
      (p.1.order_status = "assigned" ∨
        p.1.order_status = "out_for_delivery")) :
    obs.foldl (fun st p => initCountdown (some p.1) p.2 st) s = s := by
  induction obs with
  | nil => rfl
  | cons p rest ih =>
    have h1 := hobs p (List.mem_cons_self p rest)
    have hstep : initCountdown (some p.1) p.2 s = s :=
      initCountdown_already_initialized s p.1 h1.2 (by rw [hid, h1.1]) p.2
    rw [List.foldl_cons, hstep]
    exact ih fun q hq => hobs q (List.mem_cons_of_mem p hq)

/-- Witness for C8 at a concrete input: two further polls of order `o1`
with changing estimates leave an initialized countdown untouched. -/
theorem countdown_init_idempotent_witness :
    (ScreenState.mk (some 42) (some "o1")).countdownInitialized = some "o1" ∧
    ([(⟨"o1", "assigned", none, some 99⟩, 5),
      (⟨"o1", "out_for_delivery", none, some 7⟩, 9)] :
        List (OrderData × Int)).foldl
      (fun st p => initCountdown (some p.1) p.2 st) ⟨some 42, some "o1"⟩ =
      ⟨some 42, some "o1"⟩ :=
  ⟨rfl,
    countdown_init_idempotent ⟨some 42, some "o1"⟩ "o1" rfl
      [(⟨"o1", "assigned", none, some 99⟩, 5),
        (⟨"o1", "out_for_delivery", none, some 7⟩, 9)] (by decide)⟩

theorem initCountdown_nonneg (ao : Option OrderData) (now : Int)
    (s : ScreenState)
    (hs : ∀ t, s.timeRemainingSeconds = some t → 0 ≤ t) :
    ∀ t, (initCountdown ao now s).timeRemainingSeconds = some t → 0 ≤ t := by
  intro t ht
  rcases ao with _ | o
  · simp [initCountdown] at ht
  · by_cases hm : o.order_status ∈ validStatuses
    · by_cases hinit : s.countdownInitialized = some o.id
      · simp [initCountdown, hm, hinit] at ht
        exact hs t ht
      · rcases ha : o.assigned_at with _ | a
        · simp [initCountdown, hm, hinit, ha] at ht
          subst ht
          decide
        · simp [initCountdown, hm, hinit, ha] at ht
          subst ht
          exact le_sup_left
    · simp [initCountdown, hm] at ht

theorem tickEffect_nonneg (s : ScreenState)
    (hs : ∀ t, s.timeRemainingSeconds = some t → 0 ≤ t) :
    ∀ t, (tickEffect s).timeRemainingSeconds = some t → 0 ≤ t := by
  intro t ht
  rcases hu : s.timeRemainingSeconds with _ | u
  · simp [tickEffect, hu] at ht
  · simp only [tickEffect, hu] at ht
    by_cases h0 : 0 < u
    · rw [if_pos h0] at ht
      simp [tickSetter, show ¬(u ≤ 0) by omega] at ht
      omega
    · rw [if_neg h0] at ht
      exact hs t ht

theorem screenStep_nonneg (s : ScreenState)
    (hs : ∀ t, s.timeRemainingSeconds = some t → 0 ≤ t) (e : ScreenEvent) :
    ∀ t, (screenStep s e).timeRemainingSeconds = some t → 0 ≤ t := by
  cases e with
  | observe o now => exact initCountdown_nonneg o now s hs
  | tick => exact tickEffect_nonneg s hs

theorem foldl_screenStep_nonneg (evs : List ScreenEvent) :
    ∀ s : ScreenState, (∀ t, s.timeRemainingSeconds = some t → 0 ≤ t) →
      ∀ t, (evs.foldl screenStep s).timeRemainingSeconds = some t → 0 ≤ t := by
  induction evs with
  | nil => exact fun s hs => hs
  | cons e rest ih =>
    intro s hs
    rw [List.foldl_cons]
    exact ih _ (screenStep_nonneg s hs e)

/-- C9: in every state reachable from the mount state,
`timeRemainingSeconds` is absent or non-negative; a tick at `0` changes
nothing (the interval is not installed for a non-positive value); and an
observation of the same initialized order id with status `assigned` or
`out_for_delivery` keeps the value at `0`. -/
theorem remainingSeconds_invariant (evs : List ScreenEvent) :
    (∀ t, (runScreen evs).timeRemainingSeconds = some t → 0 ≤ t) ∧
    (∀ s : ScreenState, s.timeRemainingSeconds = some 0 → tickEffect s = s) ∧
    (∀ (s : ScreenState) (o : OrderData), s.timeRemainingSeconds = some 0 →
      s.countdownInitialized = some o.id →
      (o.order_status = "assigned" ∨ o.order_status = "out_for_delivery") →
      ∀ now, (initCountdown (some o) now s).timeRemainingSeconds = some 0) := by
  refine ⟨?_, ?_, ?_⟩
  · exact foldl_screenStep_nonneg evs ⟨none, none⟩ (by simp)
  · intro s h0
    simp [tickEffect, h0]
  · intro s o h0 hid hst now
    rw [initCountdown_already_initialized s o hst hid now]
    exact h0

/-- Witness for C9 at a concrete input: after initializing for order
`o1` and one tick, the remaining time is 1799 seconds, and the reached
value is non-negative by the invariant. -/
theorem remainingSeconds_invariant_witness :
    (runScreen [.observe (some ⟨"o1", "assigned", none, none⟩) 0,
      .tick]).timeRemainingSeconds = some 1799 ∧ (0 : Int) ≤ 1799 :=
  ⟨by decide,
    (remainingSeconds_invariant
      [.observe (some ⟨"o1", "assigned", none, none⟩) 0, .tick]).1 1799
      (by decide)⟩

end MobileApp
